import Mathlib

/-!
Verification development for the device-portal repository.

The Python sources (src/app.py, src/bot.py, src/webhook_server.py,
src/init_db.py) are shallowly embedded below: the sqlite database is a
record of lists of rows, each HTTP/bot handler becomes a pure function
from the database state (plus its request inputs) to the new state and
an outcome value.  The handlers are translated statement by statement
from the Python code; transport-level concerns (Flask routing,
Content-Type checks, JSON parsing, header extraction) happen before the
modelled entry points, so the functions take the already-extracted
field values as arguments.
-/

namespace DevicePortal

/-- One row of the `devices` table (src/app.py init_db, lines 27-36).
`is_authorized` is stored as INTEGER 0/1, modelled as `Bool`;
`registered_at` (DATETIME) is modelled as an abstract `Nat` clock value. -/
structure Device where
  id : Nat
  name : String
  serial_number : String
  os : String
  browser : String
  ip : String
  is_authorized : Bool
  registered_at : Nat
  deriving DecidableEq, Repr

/-- One row of the `admins` table (src/app.py init_db, lines 60-64). -/
structure Admin where
  id : Nat
  username : String
  password : String
  deriving DecidableEq, Repr

/-- The sqlite database: the two tables, plus the AUTOINCREMENT counter
for the `devices` table. -/
structure DB where
  devices : List Device
  admins : List Admin
  nextId : Nat
  deriving DecidableEq, Repr

def DB.empty : DB := ⟨[], [], 1⟩

/-- Python `str.strip()`: remove whitespace from both ends of the
string (modelled for ASCII whitespace; the handlers apply it to every
extracted text field). -/
def isSpaceChar (c : Char) : Bool :=
  c == ' ' || c == '\t' || c == '\n' || c == '\r' || c == '\x0b' || c == '\x0c'

def pyStrip (s : String) : String :=
  ⟨((s.data.dropWhile isSpaceChar).reverse.dropWhile isSpaceChar).reverse⟩

/-- Python `'$' in s`: character membership. -/
def hasChar (s : String) (c : Char) : Bool :=
  s.data.contains c

/-- `SELECT id FROM devices WHERE serial_number = ?` followed by a
`fetchone()` truthiness test (src/app.py lines 142-143, src/bot.py
lines 308-309). -/
def serialExists (devices : List Device) (sn : String) : Bool :=
  devices.any (fun d => d.serial_number == sn)

/-- `SELECT id FROM devices WHERE id=?` followed by `fetchone()`
(src/app.py lines 458, 543, 572). -/
def idExists (devices : List Device) (device_id : Nat) : Bool :=
  devices.any (fun d => d.id == device_id)

/-- Outcome of the web registration endpoint POST /register
(src/app.py register_device, lines 101-155), starting from the point
where the JSON fields have been extracted (line 111). -/
inductive RegOutcome
  | missingName
  | missingSerial
  | nameTooLong
  | serialTooLong
  | osTooLong
  | browserTooLong
  | duplicateSerial (sn : String)
  | success
  deriving DecidableEq, Repr

/-- src/app.py register_device, lines 111-151.  The four JSON fields
arrive via `data.get(key, "")`; `ip` is the client address computed on
lines 134-136 (header handling is transport and happens before this
function). -/
def register_device (db : DB) (now : Nat)
    (name_raw serial_raw os_raw browser_raw ip : String) : DB × RegOutcome :=
  let name := name_raw |> pyStrip
  let serial_number := serial_raw |> pyStrip
  let os_name := os_raw |> pyStrip
  let browser := browser_raw |> pyStrip
  if name = "" then (db, .missingName)
  else if serial_number = "" then (db, .missingSerial)
  else if name.length > 100 then (db, .nameTooLong)
  else if serial_number.length > 100 then (db, .serialTooLong)
  else if os_name.length > 50 then (db, .osTooLong)
  else if browser.length > 50 then (db, .browserTooLong)
  else if serialExists db.devices serial_number then (db, .duplicateSerial serial_number)
  else
    ({ db with
        devices := db.devices ++
          [⟨db.nextId, name, serial_number, os_name, browser, ip, false, now⟩],
        nextId := db.nextId + 1 },
     .success)

/-- Conversation state of the bot registration flow (src/bot.py):
`idle` is "no conversation", `awaitingName` is WAITING_FOR_DEVICE_NAME,
`awaitingSerial` is WAITING_FOR_SERIAL_NUMBER together with the
collected `context.user_data['device_name']`. -/
inductive ConvState
  | idle
  | awaitingName
  | awaitingSerial (device_name : String)
  deriving DecidableEq, Repr

/-- The reply the bot sends back in the registration flow. -/
inductive BotReply
  | promptName
  | invalidName
  | promptSerial
  | invalidSerial
  | duplicateSerial (sn : String)
  | registered
  | cancelled
  deriving DecidableEq, Repr

/-- src/bot.py register_command, lines 254-263. -/
def register_command : ConvState × BotReply :=
  (.awaitingName, .promptName)

/-- src/bot.py register_device_name, lines 265-284. -/
def register_device_name (text : String) : ConvState × BotReply :=
  let device_name := text |> pyStrip
  if device_name = "" ∨ device_name.length > 100 then
    (.awaitingName, .invalidName)
  else
    (.awaitingSerial device_name, .promptSerial)

/-- src/bot.py register_serial_number, lines 286-339.  `device_name` is
the value collected by `register_device_name`; OS, browser and ip are
the constants of lines 299-301. -/
def register_serial_number (db : DB) (now : Nat)
    (device_name : String) (text : String) : DB × ConvState × BotReply :=
  let serial_number := text |> pyStrip
  if serial_number = "" ∨ serial_number.length > 100 then
    (db, .awaitingSerial device_name, .invalidSerial)
  else if serialExists db.devices serial_number then
    (db, .awaitingSerial device_name, .duplicateSerial serial_number)
  else
    ({ db with
        devices := db.devices ++
          [⟨db.nextId, device_name, serial_number, "Telegram", "Telegram Bot", "N/A", false, now⟩],
        nextId := db.nextId + 1 },
     .idle, .registered)

/-- src/bot.py cancel_command, lines 341-344. -/
def cancel_command : ConvState × BotReply :=
  (.idle, .cancelled)

/-- The Flask session cookie contents the admin handlers look at:
presence/value of the `admin` (username) and `admin_id` keys. -/
structure SessionData where
  admin : Option String
  admin_id : Option Nat
  deriving DecidableEq, Repr

/-- The check `"admin" not in session or "admin_id" not in session`
(negated), used at the top of every /api admin handler
(src/app.py lines 445, 478, 517, 565). -/
def sessionHasKeys (s : SessionData) : Bool :=
  s.admin.isSome && s.admin_id.isSome

/-- Outcome of the admin /api device handlers. -/
inductive ApiOutcome
  | unauthorized
  | notFound
  | missingName
  | nameTooLong
  | osTooLong
  | browserTooLong
  | missingSerial
  | authorized
  | deauthorized
  | updated
  | deleted
  deriving DecidableEq, Repr

/-- src/app.py api_authorize_device, lines 442-473.  `authorize_field`
is `data.get("authorize", True)` before the default is applied: `none`
when the JSON body omits the key. -/
def api_authorize_device (db : DB) (sess : SessionData)
    (device_id : Nat) (authorize_field : Option Bool) : DB × ApiOutcome :=
  if ¬ sessionHasKeys sess then (db, .unauthorized)
  else
    let authorize := authorize_field.getD true
    if ¬ idExists db.devices device_id then (db, .notFound)
    else
      ({ db with
          devices := db.devices.map (fun d =>
            if d.id == device_id then { d with is_authorized := authorize } else d) },
       if authorize then .authorized else .deauthorized)

/-- src/app.py api_authorize_serial, lines 475-511. -/
def api_authorize_serial (db : DB) (sess : SessionData)
    (serial_raw : String) (authorize_field : Option Bool) : DB × ApiOutcome :=
  if ¬ sessionHasKeys sess then (db, .unauthorized)
  else
    let serial_number := serial_raw |> pyStrip
    let authorize := authorize_field.getD true
    if serial_number = "" then (db, .missingSerial)
    else if ¬ serialExists db.devices serial_number then (db, .notFound)
    else
      ({ db with
          devices := db.devices.map (fun d =>
            if d.serial_number == serial_number then { d with is_authorized := authorize } else d) },
       if authorize then .authorized else .deauthorized)

/-- src/app.py api_update_device, lines 514-560. -/
def api_update_device (db : DB) (sess : SessionData)
    (device_id : Nat) (name_raw os_raw browser_raw : String) : DB × ApiOutcome :=
  if ¬ sessionHasKeys sess then (db, .unauthorized)
  else
    let name := name_raw |> pyStrip
    let os_name := os_raw |> pyStrip
    let browser := browser_raw |> pyStrip
    if name = "" then (db, .missingName)
    else if name.length > 100 then (db, .nameTooLong)
    else if os_name.length > 50 then (db, .osTooLong)
    else if browser.length > 50 then (db, .browserTooLong)
    else if ¬ idExists db.devices device_id then (db, .notFound)
    else
      ({ db with
          devices := db.devices.map (fun d =>
            if d.id == device_id then
              { d with name := name, os := os_name, browser := browser }
            else d) },
       .updated)

/-- src/app.py api_delete_device, lines 562-585. -/
def api_delete_device (db : DB) (sess : SessionData) (device_id : Nat) : DB × ApiOutcome :=
  if ¬ sessionHasKeys sess then (db, .unauthorized)
  else if ¬ idExists db.devices device_id then (db, .notFound)
  else
    ({ db with devices := db.devices.filter (fun d => d.id != device_id) },
     .deleted)

/-- Insert a device into a list that is ordered by descending id,
keeping the order. -/
def insertDesc (d : Device) : List Device → List Device
  | [] => [d]
  | e :: es => if e.id ≤ d.id then d :: e :: es else e :: insertDesc d es

/-- `ORDER BY id DESC`: sort rows by descending id (insertion sort;
sqlite's ordering is modelled only up to its specified property). -/
def sortDesc : List Device → List Device
  | [] => []
  | d :: ds => insertDesc d (sortDesc ds)

/-- Outcome of GET /admin (src/app.py admin_dashboard, lines 211-238). -/
inductive DashOutcome
  | redirectLogin
  | dashboard (devices : List Device)
  deriving DecidableEq, Repr

/-- src/app.py admin_dashboard, lines 211-238: requires the session
keys, then re-validates the (admin_id, username) pair against the
admins table (`SELECT id FROM admins WHERE id=? AND username=?`)
before rendering the device list. -/
def admin_dashboard (db : DB) (sess : SessionData) : DashOutcome :=
  match sess.admin, sess.admin_id with
  | some u, some i =>
      if db.admins.any (fun a => a.id == i && a.username == u) then
        .dashboard (sortDesc db.devices)
      else
        .redirectLogin
  | _, _ => .redirectLogin

/-- ASCII lower-casing of one character, as sqlite's built-in LIKE
applies it (only A-Z fold; all other code points compare verbatim). -/
def lowerChar (c : Char) : Char :=
  if 65 ≤ c.toNat ∧ c.toNat ≤ 90 then Char.ofNat (c.toNat + 32) else c

/-- Case-insensitive character comparison of sqlite LIKE. -/
def charLikeEq (c d : Char) : Bool :=
  lowerChar c == lowerChar d

/-- Try a matcher on every suffix of the subject: this is how a `%`
wildcard consumes zero or more characters. -/
def likeTail (matchRest : List Char → Bool) : List Char → Bool
  | [] => matchRest []
  | d :: s' => matchRest (d :: s') || likeTail matchRest s'

/-- sqlite's LIKE operator on a pattern and a subject string
(no ESCAPE clause): `%` matches any sequence, `_` matches any single
character, every other pattern character matches case-insensitively
(ASCII folding). -/
def likeMatch : List Char → List Char → Bool
  | [], s => s.isEmpty
  | c :: p', s =>
    if c = '%' then likeTail (likeMatch p') s
    else
      match s with
      | [] => false
      | d :: s' => (if c = '_' then true else charLikeEq c d) && likeMatch p' s'

/-- `field LIKE ?` with the bound pattern `f"%⟨query⟩%"`
(src/app.py lines 360-366). -/
def fieldLike (query : String) (field : String) : Bool :=
  likeMatch ('%' :: (query.data ++ ['%'])) field.data

/-- The WHERE clause of the search query: any of the four columns
LIKE-matches the pattern. -/
def deviceLike (query : String) (d : Device) : Bool :=
  fieldLike query d.name || fieldLike query d.serial_number ||
    fieldLike query d.os || fieldLike query d.browser

/-- src/app.py api_search_devices, lines 346-390: `none` models the
400 "query parameter required" response for a blank query, otherwise
the returned device list (WHERE ... ORDER BY id DESC). -/
def api_search_devices (db : DB) (q_raw : String) : Option (List Device) :=
  let query := q_raw |> pyStrip
  if query = "" then none
  else some (sortDesc (db.devices.filter (fun d => deviceLike query d)))

/-- The spec's search predicate: `query` occurs in `field` as a
case-insensitive (ASCII) substring. -/
def containsCI (query : String) (field : String) : Bool :=
  decide ((query.data.map lowerChar) <:+: (field.data.map lowerChar))

/-- Spec-side device match: some of the four columns contains the query
case-insensitively. -/
def deviceContainsCI (query : String) (d : Device) : Bool :=
  containsCI query d.name || containsCI query d.serial_number ||
    containsCI query d.os || containsCI query d.browser

/-- Body of a webhook HTTP response (src/webhook_server.py). -/
inductive WebhookBody
  | ok
  | forbidden
  | errorText (msg : String)
  deriving DecidableEq, Repr

/-- HTTP status and JSON body of a webhook response. -/
structure WebhookResponse where
  status : Nat
  body : WebhookBody
  deriving DecidableEq, Repr

/-- The tail of the try-block of handle_webhook (src/webhook_server.py
lines 39-46): parse the body and process the update.  Everything that
can raise inside the try is summarised as an `Except` outcome carrying
the exception text. -/
def webhookAfterAuth (processing : Except String Unit) : WebhookResponse :=
  match processing with
  | .ok _ => ⟨200, .ok⟩
  | .error e => ⟨500, .errorText e⟩

/-- src/webhook_server.py handle_webhook, lines 27-50.  `expected` is
`os.environ.get("TELEGRAM_WEBHOOK_SECRET")` (`none` when unset; the
Python truthiness test also skips the check for an empty string);
`provided` is the X-Telegram-Bot-Api-Secret-Token header. -/
def handle_webhook (expected provided : Option String)
    (processing : Except String Unit) : WebhookResponse :=
  if expected.getD "" = "" then webhookAfterAuth processing
  else if provided = expected then webhookAfterAuth processing
  else ⟨403, .forbidden⟩

/-- Split a character list at the first `$`, returning the parts before
and after it, or `none` when no `$` occurs. -/
def splitOnceDollar : List Char → Option (List Char × List Char)
  | [] => none
  | c :: rest =>
    if c = '$' then some ([], rest)
    else
      match splitOnceDollar rest with
      | none => none
      | some (a, b) => some (c :: a, b)

/-- Python `s.split('$', 2)` restricted to the successful 3-way
unpacking `method, salt, hashval = pwhash.split("$", 2)`: `none` when
the string holds fewer than two `$` characters (the unpacking raises
and the verifier returns False). -/
def split2Dollar (s : String) : Option (String × String × String) :=
  match splitOnceDollar s.data with
  | none => none
  | some (m, rest) =>
    match splitOnceDollar rest with
    | none => none
    | some (sa, h) => some (⟨m⟩, ⟨sa⟩, ⟨h⟩)

/-- Modelled from the spec: the salted one-way digest computed by the
password-hashing library (werkzeug, not part of src/).  §3 calls the
stored value a "salted one-way hash"; the digest is modelled as a free
symbolic term of the salt and the password, which keeps it injective
and never equal to any of its own substrings. -/
def hashDigest (salt password : String) : String :=
  "h(" ++ salt ++ ":" ++ password ++ ")"

/-- Modelled from the spec: werkzeug's generate_password_hash (not part
of src/) produces `method$salt$digest`; the method tag contains no `$`
and the salt is drawn by the library, modelled as an explicit argument. -/
def generate_password_hash (salt password : String) : String :=
  "scrypt:32768:8:1$" ++ salt ++ "$" ++ hashDigest salt password

/-- Modelled from the spec: werkzeug's check_password_hash (not part of
src/) splits the stored value as `method$salt$digest` (rejecting
malformed values and empty method/salt) and compares the stored digest
with the digest recomputed from the supplied password — §4.2: "If
stored credential is a recognized hash, verify via constant-time
comparison". -/
def check_password_hash (stored password : String) : Bool :=
  match split2Dollar stored with
  | none => false
  | some (method, salt, hashval) =>
    method ≠ "" && salt ≠ "" && hashval == hashDigest salt password

/-- `SELECT ... FROM admins WHERE username=?` + `fetchone()`. -/
def findAdmin (admins : List Admin) (u : String) : Option Admin :=
  admins.find? (fun a => a.username == u)

/-- Outcome of POST /login (src/app.py login, lines 158-202). -/
inductive LoginOutcome
  | missingFields
  | invalidCreds
  | loggedIn (sess : SessionData)
  deriving DecidableEq, Repr

/-- src/app.py login, lines 160-200 (the POST branch).  Returns the
possibly-migrated admins table and the outcome; `salt` is the salt the
hashing library would draw for a lazy migration. -/
def login (admins : List Admin) (salt : String)
    (username_raw password : String) : List Admin × LoginOutcome :=
  let username := username_raw |> pyStrip
  if username = "" ∨ password = "" then (admins, .missingFields)
  else if username.length > 50 then (admins, .invalidCreds)
  else
    match findAdmin admins username with
    | none => (admins, .invalidCreds)
    | some admin =>
      if hasChar admin.password '$' then
        if check_password_hash admin.password password then
          (admins, .loggedIn ⟨some username, some admin.id⟩)
        else (admins, .invalidCreds)
      else
        if admin.password == password then
          (admins.map (fun a =>
              if a.username == username then
                { a with password := generate_password_hash salt password }
              else a),
           .loggedIn ⟨some username, some admin.id⟩)
        else (admins, .invalidCreds)

/-- The AUTOINCREMENT id for a fresh admins row. -/
def nextAdminId (admins : List Admin) : Nat :=
  (admins.map (fun a => a.id)).foldr max 0 + 1

/-- The per-row body of the migration loop of src/app.py init_admin,
lines 89-94: `if admin_password and '$' not in admin_password: ...`. -/
def migrateRow (salt : String) (a : Admin) : Admin :=
  if a.password ≠ "" ∧ ¬ hasChar a.password '$' then
    { a with password := generate_password_hash salt a.password }
  else a

namespace App

/-- src/app.py init_admin, lines 68-94: ensure the default `admin`
account (hashing "1234" when inserting), eagerly migrate a plaintext
`admin` password, then sweep all rows migrating plaintext passwords.
One symbolic `salt` stands for the salts drawn during the run. -/
def init_admin (salt : String) (admins : List Admin) : List Admin :=
  let admins1 : List Admin :=
    match findAdmin admins "admin" with
    | none =>
        admins ++ [⟨nextAdminId admins, "admin", generate_password_hash salt "1234"⟩]
    | some a =>
        if a.password ≠ "" ∧ ¬ hasChar a.password '$' then
          admins.map (fun r =>
            if r.username == "admin" then
              { r with password := generate_password_hash salt a.password }
            else r)
        else admins
  admins1.map (migrateRow salt)

end App

namespace InitDb

/-- src/init_db.py init_admin, lines 33-61: insert the default admin if
missing, else migrate every row whose password lacks `$`
(`if '$' not in row[1]`, with no non-emptiness guard). -/
def init_admin (salt : String) (admins : List Admin) : List Admin :=
  match findAdmin admins "admin" with
  | none =>
      admins ++ [⟨nextAdminId admins, "admin", generate_password_hash salt "1234"⟩]
  | some _ =>
      admins.map (fun r =>
        if ¬ hasChar r.password '$' then
          { r with password := generate_password_hash salt r.password }
        else r)

end InitDb

/-- The serial-number uniqueness invariant of §3 of the spec: no two
device rows share a serial number. -/
def SerialsUnique (ds : List Device) : Prop :=
  List.Pairwise (fun a b => a.serial_number ≠ b.serial_number) ds

/-- One database transition: any of the mutating handlers of the
repository fires with arbitrary request inputs. -/
inductive Step : DB → DB → Prop
  | web (db : DB) (now : Nat) (n s o b ip : String) :
      Step db (register_device db now n s o b ip).1
  | bot (db : DB) (now : Nat) (name text : String) :
      Step db (register_serial_number db now name text).1
  | authDev (db : DB) (sess : SessionData) (did : Nat) (f : Option Bool) :
      Step db (api_authorize_device db sess did f).1
  | authSer (db : DB) (sess : SessionData) (sn : String) (f : Option Bool) :
      Step db (api_authorize_serial db sess sn f).1
  | updDev (db : DB) (sess : SessionData) (did : Nat) (n o b : String) :
      Step db (api_update_device db sess did n o b).1
  | delDev (db : DB) (sess : SessionData) (did : Nat) :
      Step db (api_delete_device db sess did).1
  | doLogin (db : DB) (salt u p : String) :
      Step db { db with admins := (login db.admins salt u p).1 }
  | initAdminApp (db : DB) (salt : String) :
      Step db { db with admins := App.init_admin salt db.admins }
  | initAdminDb (db : DB) (salt : String) :
      Step db { db with admins := InitDb.init_admin salt db.admins }

/-- Database states reachable from the freshly initialised (empty)
database through the repository's handlers. -/
inductive Reachable : DB → Prop
  | empty : Reachable DB.empty
  | step {db db' : DB} : Reachable db → Step db db' → Reachable db'

/-- The validation order §4.4 of the spec prescribes for the
registration intake, written from the spec's words ("first failure
wins: missing name → missing serial → name length → serial length →
os length → browser length → duplicate serial"), to be compared with
the outcome of `register_device`. -/
def intakeOutcomeSpec (db : DB) (name serial_number os_name browser : String) : RegOutcome :=
  if name = "" then .missingName
  else if serial_number = "" then .missingSerial
  else if name.length > 100 then .nameTooLong
  else if serial_number.length > 100 then .serialTooLong
  else if os_name.length > 50 then .osTooLong
  else if browser.length > 50 then .browserTooLong
  else if serialExists db.devices serial_number then .duplicateSerial serial_number
  else .success

/-- A query string free of the LIKE wildcard characters. -/
def WildFree (cs : List Char) : Prop :=
  ∀ c ∈ cs, c ≠ '%' ∧ c ≠ '_'

instance (cs : List Char) : Decidable (WildFree cs) :=
  decidable_of_iff (∀ c ∈ cs, c ≠ '%' ∧ c ≠ '_') Iff.rfl

/-! ## General lemmas about the model -/

theorem serialExists_false_iff (ds : List Device) (sn : String) :
    serialExists ds sn = false ↔ ∀ d ∈ ds, d.serial_number ≠ sn := by
  simp [serialExists, List.any_eq_false]

theorem serialsUnique_append {ds : List Device} {d : Device}
    (h : SerialsUnique ds) (hnew : serialExists ds d.serial_number = false) :
    SerialsUnique (ds ++ [d]) := by
  rw [SerialsUnique, List.pairwise_append]
  refine ⟨h, List.pairwise_singleton _ _, ?_⟩
  intro a ha b hb
  rw [List.mem_singleton] at hb
  subst hb
  exact ((serialExists_false_iff _ _).mp hnew) a ha

theorem serialsUnique_map {ds : List Device} {f : Device → Device}
    (hf : ∀ d, (f d).serial_number = d.serial_number)
    (h : SerialsUnique ds) : SerialsUnique (ds.map f) := by
  rw [SerialsUnique, List.pairwise_map]
  exact h.imp (by intro a b hab; rw [hf, hf]; exact hab)

theorem serialsUnique_filter {ds : List Device} (p : Device → Bool)
    (h : SerialsUnique ds) : SerialsUnique (ds.filter p) :=
  List.Pairwise.sublist (List.filter_sublist ds) h

theorem pres_register (db : DB) (now : Nat) (n s o b ip : String)
    (h : SerialsUnique db.devices) :
    SerialsUnique (register_device db now n s o b ip).1.devices := by
  simp only [register_device]
  split_ifs with h1 h2 h3 h4 h5 h6 h7
  any_goals exact h
  exact serialsUnique_append h (by simpa using h7)

theorem pres_bot (db : DB) (now : Nat) (nm t : String)
    (h : SerialsUnique db.devices) :
    SerialsUnique (register_serial_number db now nm t).1.devices := by
  simp only [register_serial_number]
  split_ifs with h1 h2
  any_goals exact h
  exact serialsUnique_append h (by simpa using h2)

theorem pres_authDev (db : DB) (sess : SessionData) (did : Nat) (f : Option Bool)
    (h : SerialsUnique db.devices) :
    SerialsUnique (api_authorize_device db sess did f).1.devices := by
  simp only [api_authorize_device]
  split_ifs
  all_goals first
    | exact h
    | exact serialsUnique_map (by intro d; split <;> rfl) h

theorem pres_authSer (db : DB) (sess : SessionData) (sn : String) (f : Option Bool)
    (h : SerialsUnique db.devices) :
    SerialsUnique (api_authorize_serial db sess sn f).1.devices := by
  simp only [api_authorize_serial]
  split_ifs
  all_goals first
    | exact h
    | exact serialsUnique_map (by intro d; split <;> rfl) h

theorem pres_updDev (db : DB) (sess : SessionData) (did : Nat) (n o b : String)
    (h : SerialsUnique db.devices) :
    SerialsUnique (api_update_device db sess did n o b).1.devices := by
  simp only [api_update_device]
  split_ifs
  all_goals first
    | exact h
    | exact serialsUnique_map (by intro d; split <;> rfl) h

theorem pres_delDev (db : DB) (sess : SessionData) (did : Nat)
    (h : SerialsUnique db.devices) :
    SerialsUnique (api_delete_device db sess did).1.devices := by
  simp only [api_delete_device]
  split_ifs
  any_goals exact h
  exact serialsUnique_filter _ h

/-! ## Claim C2 (privileged operations and stale sessions) -/

/-- C2: evaluation of the privileged API handlers on a session whose
admin record does not exist (the admins table is empty): all four
endpoints proceed instead of rejecting with Unauthorized, while the
/admin dashboard on the same state does re-validate and redirects to
login.  This exhibits the failing input for the claim. -/
theorem privileged_api_trusts_stale_session :
    api_authorize_device ⟨[⟨1, "Laptop", "SN-1", "", "", "ip", false, 0⟩], [], 2⟩
        ⟨some "ghost", some 7⟩ 1 none =
      (⟨[⟨1, "Laptop", "SN-1", "", "", "ip", true, 0⟩], [], 2⟩, ApiOutcome.authorized)
    ∧ (api_authorize_serial ⟨[⟨1, "Laptop", "SN-1", "", "", "ip", false, 0⟩], [], 2⟩
        ⟨some "ghost", some 7⟩ "SN-1" (some false)).2 = ApiOutcome.deauthorized
    ∧ (api_update_device ⟨[⟨1, "Laptop", "SN-1", "", "", "ip", false, 0⟩], [], 2⟩
        ⟨some "ghost", some 7⟩ 1 "New" "o" "b").2 = ApiOutcome.updated
    ∧ (api_delete_device ⟨[⟨1, "Laptop", "SN-1", "", "", "ip", false, 0⟩], [], 2⟩
        ⟨some "ghost", some 7⟩ 1).2 = ApiOutcome.deleted
    ∧ admin_dashboard ⟨[⟨1, "Laptop", "SN-1", "", "", "ip", false, 0⟩], [], 2⟩
        ⟨some "ghost", some 7⟩ = DashOutcome.redirectLogin := by
  refine ⟨by decide, by decide, by decide, by decide, by decide⟩

/-! ## Claim C3 (registration stores devices unauthorized) -/

/-- C3: every device created through either registration channel (web
form or bot conversation) is appended with `is_authorized = false`; no
registration path can create an already-authorized device. -/
theorem registration_default_unauthorized :
    (∀ db now n s o b ip db2,
        register_device db now n s o b ip = (db2, RegOutcome.success) →
        ∃ d, db2.devices = db.devices ++ [d] ∧ d.is_authorized = false)
    ∧ (∀ db now nm t db2 st r,
        register_serial_number db now nm t = (db2, st, r) →
        r = BotReply.registered →
        ∃ d, db2.devices = db.devices ++ [d] ∧ d.is_authorized = false) := by
  constructor
  · intro db now n s o b ip db2 h
    simp only [register_device] at h
    split_ifs at h
    any_goals exact RegOutcome.noConfusion (congrArg Prod.snd h)
    rw [Prod.mk.injEq] at h
    exact ⟨_, by rw [← h.1], rfl⟩
  · intro db now nm t db2 st r h hr
    subst hr
    simp only [register_serial_number] at h
    split_ifs at h
    any_goals exact BotReply.noConfusion (congrArg (fun x => x.2.2) h)
    rw [Prod.mk.injEq] at h
    exact ⟨_, by rw [← h.1], rfl⟩

/-- C3 witness: both channels evaluated at a concrete fresh input. -/
theorem registration_default_unauthorized_check :
    (∃ d, (⟨[⟨1, "A", "SN-1", "", "", "ip", false, 0⟩], ([] : List Admin), 2⟩ : DB).devices =
        DB.empty.devices ++ [d] ∧ d.is_authorized = false)
    ∧ (∃ d, (⟨[⟨1, "Phone", "SN-2", "Telegram", "Telegram Bot", "N/A", false, 3⟩], ([] : List Admin), 2⟩ : DB).devices =
        DB.empty.devices ++ [d] ∧ d.is_authorized = false) := by
  constructor
  · exact registration_default_unauthorized.1 DB.empty 0 "A" "SN-1" "" "" "ip"
      ⟨[⟨1, "A", "SN-1", "", "", "ip", false, 0⟩], [], 2⟩ (by decide)
  · exact registration_default_unauthorized.2 DB.empty 3 "Phone" "SN-2"
      ⟨[⟨1, "Phone", "SN-2", "Telegram", "Telegram Bot", "N/A", false, 3⟩], [], 2⟩
      ConvState.idle BotReply.registered (by decide) rfl

/-! ## Claim C4 (web intake validation order) -/

/-- C4: the web registration intake returns exactly the first failure
in the spec order (missing name, missing serial, name length, serial
length, os length, browser length, duplicate serial), and any failure
leaves the database unchanged. -/
theorem web_validation_order (db : DB) (now : Nat) (n s o b ip : String) :
    (register_device db now n s o b ip).2 =
      intakeOutcomeSpec db (pyStrip n) (pyStrip s) (pyStrip o) (pyStrip b)
    ∧ ((register_device db now n s o b ip).1 = db
        ∨ (register_device db now n s o b ip).2 = RegOutcome.success) := by
  constructor
  · simp only [register_device, intakeOutcomeSpec]
    split_ifs <;> rfl
  · simp only [register_device]
    split_ifs <;> simp

/-- C4 witness: a doubly-invalid input (blank name and over-long
browser) is reported as missing name, the earliest failure in the spec
order, and inserts nothing. -/
theorem web_validation_order_check :
    (register_device DB.empty 0 "  " "SN-1" "" "BBBBBBBBBBBBBBBBBBBBBBBBBBBBBBBBBBBBBBBBBBBBBBBBBBBBBBB" "ip").2 =
      intakeOutcomeSpec DB.empty (pyStrip "  ") (pyStrip "SN-1") (pyStrip "")
        (pyStrip "BBBBBBBBBBBBBBBBBBBBBBBBBBBBBBBBBBBBBBBBBBBBBBBBBBBBBBB")
    ∧ ((register_device DB.empty 0 "  " "SN-1" "" "BBBBBBBBBBBBBBBBBBBBBBBBBBBBBBBBBBBBBBBBBBBBBBBBBBBBBBB" "ip").1 = DB.empty
        ∨ (register_device DB.empty 0 "  " "SN-1" "" "BBBBBBBBBBBBBBBBBBBBBBBBBBBBBBBBBBBBBBBBBBBBBBBBBBBBBBB" "ip").2 = RegOutcome.success) :=
  web_validation_order DB.empty 0 "  " "SN-1" ""
    "BBBBBBBBBBBBBBBBBBBBBBBBBBBBBBBBBBBBBBBBBBBBBBBBBBBBBBB" "ip"

/-! ## Claim C8 (webhook acknowledgement) -/

/-- C8 counterexample: a delivery that passes the shared-secret check
but whose processing raises is answered with HTTP 500 and a body
carrying the exception text, not with the ok acknowledgement the claim
describes. -/
theorem webhook_error_cex :
    handle_webhook (some "sek") (some "sek") (Except.error "boom") =
      ⟨500, WebhookBody.errorText "boom"⟩
    ∧ handle_webhook (some "sek") (some "sek") (Except.error "boom") ≠
      ⟨200, WebhookBody.ok⟩ := by
  refine ⟨by decide, by decide⟩

/-- C8 amended: for a delivery passing the shared-secret check the
endpoint answers 200 with status ok exactly when processing succeeds;
when processing raises, it answers 500 with a body containing the
exception text (so processing failures are surfaced to the sender, not
only logged). -/
theorem webhook_ack_or_error (expected provided : Option String)
    (proc : Except String Unit)
    (hpass : expected.getD "" = "" ∨ provided = expected) :
    (proc = Except.ok () → handle_webhook expected provided proc = ⟨200, WebhookBody.ok⟩)
    ∧ (∀ e, proc = Except.error e →
        handle_webhook expected provided proc = ⟨500, WebhookBody.errorText e⟩) := by
  have hb : handle_webhook expected provided proc = webhookAfterAuth proc := by
    unfold handle_webhook
    rcases hpass with h | h
    · rw [if_pos h]
    · by_cases h0 : expected.getD "" = ""
      · rw [if_pos h0]
      · rw [if_neg h0, if_pos h]
  constructor
  · intro h; subst h; rw [hb]; rfl
  · intro e h; subst h; rw [hb]; rfl

/-- C8 amended witness: concrete deliveries with a matching secret. -/
theorem webhook_ack_or_error_check :
    handle_webhook (some "sek") (some "sek") (Except.ok ()) = ⟨200, WebhookBody.ok⟩
    ∧ handle_webhook (some "sek") (some "sek") (Except.error "oops") =
      ⟨500, WebhookBody.errorText "oops"⟩ :=
  ⟨(webhook_ack_or_error (some "sek") (some "sek") (Except.ok ()) (Or.inr rfl)).1 rfl,
   (webhook_ack_or_error (some "sek") (some "sek") (Except.error "oops") (Or.inr rfl)).2 "oops" rfl⟩

/-! ## Claim C9 (authorize field defaults to true) -/

/-- C9: when the JSON body omits the authorize field, both
authorization endpoints set `is_authorized` to true on the targeted
existing device under a session carrying both keys. -/
theorem authorize_omitted_field_defaults_true (db : DB) (sess : SessionData)
    (did : Nat) (sn_raw : String)
    (hs : sessionHasKeys sess = true)
    (hid : idExists db.devices did = true)
    (hsn : pyStrip sn_raw ≠ "")
    (hser : serialExists db.devices (pyStrip sn_raw) = true) :
    api_authorize_device db sess did none =
      ({ db with devices := db.devices.map (fun d =>
          if d.id == did then { d with is_authorized := true } else d) },
        ApiOutcome.authorized)
    ∧ api_authorize_serial db sess sn_raw none =
      ({ db with devices := db.devices.map (fun d =>
          if d.serial_number == pyStrip sn_raw then { d with is_authorized := true } else d) },
        ApiOutcome.authorized) := by
  constructor
  · simp [api_authorize_device, hs, hid]
  · simp [api_authorize_serial, hs, hsn, hser]

/-- C9 witness: both endpoints on a one-device database with a body
omitting the authorize field. -/
theorem authorize_omitted_field_defaults_true_check :
    api_authorize_device ⟨[⟨1, "Laptop", "SN-1", "", "", "ip", false, 0⟩], [], 2⟩
        ⟨some "admin", some 1⟩ 1 none =
      (⟨[⟨1, "Laptop", "SN-1", "", "", "ip", true, 0⟩], [], 2⟩, ApiOutcome.authorized)
    ∧ api_authorize_serial ⟨[⟨1, "Laptop", "SN-1", "", "", "ip", false, 0⟩], [], 2⟩
        ⟨some "admin", some 1⟩ "SN-1" none =
      (⟨[⟨1, "Laptop", "SN-1", "", "", "ip", true, 0⟩], [], 2⟩, ApiOutcome.authorized) := by
  have h := authorize_omitted_field_defaults_true
    ⟨[⟨1, "Laptop", "SN-1", "", "", "ip", false, 0⟩], [], 2⟩
    ⟨some "admin", some 1⟩ 1 "SN-1" (by decide) (by decide) (by decide) (by decide)
  exact ⟨h.1.trans (by decide), h.2.trans (by decide)⟩

/-! ## Claim C5 (bot duplicate-serial retry) -/

/-- C5: in the AwaitingSerial state a duplicate serial writes no row
and keeps the conversation in AwaitingSerial with the collected name,
and a subsequent not-yet-registered serial inserts the device and ends
the conversation (back to Idle). -/
theorem bot_duplicate_serial_retry (db : DB) (now1 now2 : Nat) (nm s1 s2 : String)
    (h1e : pyStrip s1 ≠ "") (h1l : (pyStrip s1).length ≤ 100)
    (h1 : serialExists db.devices (pyStrip s1) = true)
    (h2e : pyStrip s2 ≠ "") (h2l : (pyStrip s2).length ≤ 100)
    (h2 : serialExists db.devices (pyStrip s2) = false) :
    register_serial_number db now1 nm s1 =
      (db, ConvState.awaitingSerial nm, BotReply.duplicateSerial (pyStrip s1))
    ∧ register_serial_number db now2 nm s2 =
      ({ db with
          devices := db.devices ++
            [⟨db.nextId, nm, pyStrip s2, "Telegram", "Telegram Bot", "N/A", false, now2⟩],
          nextId := db.nextId + 1 },
        ConvState.idle, BotReply.registered) := by
  constructor
  · simp [register_serial_number, h1, h1e, Nat.not_lt.mpr h1l]
  · simp [register_serial_number, h2, h2e, Nat.not_lt.mpr h2l]

/-- C5 witness: the spec scenario with serial SN-200 already stored and
SN-201 fresh. -/
theorem bot_duplicate_serial_retry_check :
    register_serial_number ⟨[⟨1, "X", "SN-200", "", "", "N/A", false, 0⟩], [], 2⟩ 1 "Phone" "SN-200" =
      (⟨[⟨1, "X", "SN-200", "", "", "N/A", false, 0⟩], [], 2⟩,
        ConvState.awaitingSerial "Phone", BotReply.duplicateSerial "SN-200")
    ∧ register_serial_number ⟨[⟨1, "X", "SN-200", "", "", "N/A", false, 0⟩], [], 2⟩ 2 "Phone" "SN-201" =
      (⟨[⟨1, "X", "SN-200", "", "", "N/A", false, 0⟩,
          ⟨2, "Phone", "SN-201", "Telegram", "Telegram Bot", "N/A", false, 2⟩], [], 3⟩,
        ConvState.idle, BotReply.registered) := by
  have h := bot_duplicate_serial_retry ⟨[⟨1, "X", "SN-200", "", "", "N/A", false, 0⟩], [], 2⟩
    1 2 "Phone" "SN-200" "SN-201"
    (by decide) (by decide) (by decide) (by decide) (by decide) (by decide)
  exact ⟨h.1.trans (by decide), h.2.trans (by decide)⟩

/-! ## Claim C6 (device update: NotFound and frame) -/

/-- C6: PUT on a missing device id answers NotFound and changes
nothing; on an existing id it rewrites only name, os and browser —
the id, serial_number, is_authorized, ip and registered_at of every
row are untouched, and rows with a different id are untouched
entirely. -/
theorem update_device_frame (db : DB) (sess : SessionData) (did : Nat)
    (n o b : String)
    (hs : sessionHasKeys sess = true)
    (hn : pyStrip n ≠ "") (hln : (pyStrip n).length ≤ 100)
    (hlo : (pyStrip o).length ≤ 50) (hlb : (pyStrip b).length ≤ 50) :
    (idExists db.devices did = false →
        api_update_device db sess did n o b = (db, ApiOutcome.notFound))
    ∧ (idExists db.devices did = true →
        api_update_device db sess did n o b =
          ({ db with devices := db.devices.map (fun d =>
              if d.id == did then
                { d with name := pyStrip n, os := pyStrip o, browser := pyStrip b }
              else d) },
            ApiOutcome.updated))
    ∧ ((api_update_device db sess did n o b).1.devices.map
          (fun d => (d.id, d.serial_number, d.is_authorized, d.ip, d.registered_at)) =
        db.devices.map (fun d => (d.id, d.serial_number, d.is_authorized, d.ip, d.registered_at)))
    ∧ (∀ d ∈ db.devices, d.id ≠ did →
        d ∈ (api_update_device db sess did n o b).1.devices) := by
  have hnl := Nat.not_lt.mpr hln
  have hol := Nat.not_lt.mpr hlo
  have hbl := Nat.not_lt.mpr hlb
  by_cases hex : idExists db.devices did
  · have heq : api_update_device db sess did n o b =
        ({ db with devices := db.devices.map (fun d =>
            if d.id == did then
              { d with name := pyStrip n, os := pyStrip o, browser := pyStrip b }
            else d) },
          ApiOutcome.updated) := by
      simp [api_update_device, hs, hn, hnl, hol, hbl, hex]
    refine ⟨fun hfalse => absurd hex (by simp [hfalse]), fun _ => heq, ?_, ?_⟩
    · rw [heq]
      show (db.devices.map _).map _ = _
      rw [List.map_map]
      apply List.map_congr_left
      intro d _
      by_cases hd : d.id = did <;> simp [hd]
    · intro d hd hne
      rw [heq]
      show d ∈ db.devices.map _
      refine List.mem_map.mpr ⟨d, hd, ?_⟩
      rw [if_neg (by simp [hne])]
  · have hex0 : idExists db.devices did = false := by simpa using hex
    have heq : api_update_device db sess did n o b = (db, ApiOutcome.notFound) := by
      simp [api_update_device, hs, hn, hnl, hol, hbl, hex0]
    refine ⟨fun _ => heq, fun htrue => absurd htrue (by simp [hex0]), ?_, ?_⟩
    · rw [heq]
    · intro d hd _
      rw [heq]
      exact hd

/-- C6 witness: a two-device database; updating id 1 rewrites only its
name/os/browser, and updating the absent id 5 answers NotFound. -/
theorem update_device_frame_check :
    api_update_device ⟨[⟨1, "Old", "SN-1", "o1", "b1", "ip1", true, 7⟩,
        ⟨2, "Other", "SN-2", "o2", "b2", "ip2", false, 8⟩], [], 3⟩
        ⟨some "admin", some 1⟩ 1 "New" "os9" "br9" =
      (⟨[⟨1, "New", "SN-1", "os9", "br9", "ip1", true, 7⟩,
          ⟨2, "Other", "SN-2", "o2", "b2", "ip2", false, 8⟩], [], 3⟩, ApiOutcome.updated)
    ∧ api_update_device ⟨[⟨1, "Old", "SN-1", "o1", "b1", "ip1", true, 7⟩,
        ⟨2, "Other", "SN-2", "o2", "b2", "ip2", false, 8⟩], [], 3⟩
        ⟨some "admin", some 1⟩ 5 "New" "os9" "br9" =
      (⟨[⟨1, "Old", "SN-1", "o1", "b1", "ip1", true, 7⟩,
          ⟨2, "Other", "SN-2", "o2", "b2", "ip2", false, 8⟩], [], 3⟩, ApiOutcome.notFound) := by
  have h1 := update_device_frame ⟨[⟨1, "Old", "SN-1", "o1", "b1", "ip1", true, 7⟩,
      ⟨2, "Other", "SN-2", "o2", "b2", "ip2", false, 8⟩], [], 3⟩
      ⟨some "admin", some 1⟩ 1 "New" "os9" "br9"
      (by decide) (by decide) (by decide) (by decide) (by decide)
  have h2 := update_device_frame ⟨[⟨1, "Old", "SN-1", "o1", "b1", "ip1", true, 7⟩,
      ⟨2, "Other", "SN-2", "o2", "b2", "ip2", false, 8⟩], [], 3⟩
      ⟨some "admin", some 1⟩ 5 "New" "os9" "br9"
      (by decide) (by decide) (by decide) (by decide) (by decide)
  exact ⟨(h1.2.1 (by decide)).trans (by decide), (h2.1 (by decide)).trans (by decide)⟩

/-! ## Claim C1 (serial-number uniqueness) -/

/-- C1: in every reachable database state no two devices share a
serial number; on such a state a registration request (web or bot)
with otherwise-valid fields is rejected as a duplicate without
inserting a row when its (stripped) serial is already stored, and
succeeds when it is not. -/
theorem serial_uniqueness (db : DB) (h : Reachable db) :
    SerialsUnique db.devices
    ∧ (∀ now n s o b ip,
        pyStrip n ≠ "" → (pyStrip n).length ≤ 100 →
        pyStrip s ≠ "" → (pyStrip s).length ≤ 100 →
        (pyStrip o).length ≤ 50 → (pyStrip b).length ≤ 50 →
        (serialExists db.devices (pyStrip s) = true →
          register_device db now n s o b ip =
            (db, RegOutcome.duplicateSerial (pyStrip s)))
        ∧ (serialExists db.devices (pyStrip s) = false →
          register_device db now n s o b ip =
            ({ db with
                devices := db.devices ++
                  [⟨db.nextId, pyStrip n, pyStrip s, pyStrip o, pyStrip b, ip, false, now⟩],
                nextId := db.nextId + 1 },
              RegOutcome.success)))
    ∧ (∀ now nm t,
        pyStrip t ≠ "" → (pyStrip t).length ≤ 100 →
        (serialExists db.devices (pyStrip t) = true →
          register_serial_number db now nm t =
            (db, ConvState.awaitingSerial nm, BotReply.duplicateSerial (pyStrip t)))
        ∧ (serialExists db.devices (pyStrip t) = false →
          register_serial_number db now nm t =
            ({ db with
                devices := db.devices ++
                  [⟨db.nextId, nm, pyStrip t, "Telegram", "Telegram Bot", "N/A", false, now⟩],
                nextId := db.nextId + 1 },
              ConvState.idle, BotReply.registered))) := by
  refine ⟨?_, ?_, ?_⟩
  · induction h with
    | empty => exact List.Pairwise.nil
    | @step dbp dbc hr hstep ih =>
      cases hstep with
      | web now n s o b ip => exact pres_register dbp now n s o b ip ih
      | bot now name text => exact pres_bot dbp now name text ih
      | authDev sess did f => exact pres_authDev dbp sess did f ih
      | authSer sess sn f => exact pres_authSer dbp sess sn f ih
      | updDev sess did n o b => exact pres_updDev dbp sess did n o b ih
      | delDev sess did => exact pres_delDev dbp sess did ih
      | doLogin salt u p => exact ih
      | initAdminApp salt => exact ih
      | initAdminDb salt => exact ih
  · intro now n s o b ip hne hnl hse hsl hol hbl
    constructor
    · intro hdup
      simp [register_device, hne, hse, Nat.not_lt.mpr hnl, Nat.not_lt.mpr hsl,
        Nat.not_lt.mpr hol, Nat.not_lt.mpr hbl, hdup]
    · intro hfresh
      simp [register_device, hne, hse, Nat.not_lt.mpr hnl, Nat.not_lt.mpr hsl,
        Nat.not_lt.mpr hol, Nat.not_lt.mpr hbl, hfresh]
  · intro now nm t hte htl
    constructor
    · intro hdup
      simp [register_serial_number, hte, Nat.not_lt.mpr htl, hdup]
    · intro hfresh
      simp [register_serial_number, hte, Nat.not_lt.mpr htl, hfresh]

/-- C1 witness: the database holding the single device SN-1 (reached
by one web registration from the empty state) has pairwise-distinct
serials, rejects a second web or bot registration of SN-1, and accepts
a registration of the fresh SN-2. -/
theorem serial_uniqueness_check :
    SerialsUnique (⟨[⟨1, "A", "SN-1", "", "", "ip", false, 0⟩], ([] : List Admin), 2⟩ : DB).devices
    ∧ register_device ⟨[⟨1, "A", "SN-1", "", "", "ip", false, 0⟩], [], 2⟩ 1 "B" "SN-1" "" "" "ip2" =
      (⟨[⟨1, "A", "SN-1", "", "", "ip", false, 0⟩], [], 2⟩, RegOutcome.duplicateSerial "SN-1")
    ∧ register_serial_number ⟨[⟨1, "A", "SN-1", "", "", "ip", false, 0⟩], [], 2⟩ 2 "Phone" "SN-1" =
      (⟨[⟨1, "A", "SN-1", "", "", "ip", false, 0⟩], [], 2⟩,
        ConvState.awaitingSerial "Phone", BotReply.duplicateSerial "SN-1")
    ∧ register_device ⟨[⟨1, "A", "SN-1", "", "", "ip", false, 0⟩], [], 2⟩ 3 "C" "SN-2" "" "" "ip3" =
      (⟨[⟨1, "A", "SN-1", "", "", "ip", false, 0⟩,
          ⟨2, "C", "SN-2", "", "", "ip3", false, 3⟩], [], 3⟩, RegOutcome.success) := by
  have hreach : Reachable (⟨[⟨1, "A", "SN-1", "", "", "ip", false, 0⟩], [], 2⟩ : DB) := by
    have hstep := Step.web DB.empty 0 "A" "SN-1" "" "" "ip"
    have : (register_device DB.empty 0 "A" "SN-1" "" "" "ip").1 =
        (⟨[⟨1, "A", "SN-1", "", "", "ip", false, 0⟩], [], 2⟩ : DB) := by decide
    exact this ▸ Reachable.step Reachable.empty hstep
  have h := serial_uniqueness ⟨[⟨1, "A", "SN-1", "", "", "ip", false, 0⟩], [], 2⟩ hreach
  refine ⟨h.1, ?_, ?_, ?_⟩
  · exact ((h.2.1 1 "B" "SN-1" "" "" "ip2" (by decide) (by decide) (by decide) (by decide)
      (by decide) (by decide)).1 (by decide)).trans (by decide)
  · exact ((h.2.2 2 "Phone" "SN-1" (by decide) (by decide)).1 (by decide)).trans (by decide)
  · exact ((h.2.1 3 "C" "SN-2" "" "" "ip3" (by decide) (by decide) (by decide) (by decide)
      (by decide) (by decide)).2 (by decide)).trans (by decide)

/-! ## LIKE-matching lemmas (for claim C7) -/

theorem likeMatch_nil_eq (s : List Char) : likeMatch [] s = s.isEmpty := rfl

theorem likeMatch_cons_nil (c : Char) (p : List Char) :
    likeMatch (c :: p) [] =
      if c = '%' then likeTail (likeMatch p) [] else false := rfl

theorem likeMatch_cons_cons (c : Char) (p : List Char) (d : Char) (s2 : List Char) :
    likeMatch (c :: p) (d :: s2) =
      if c = '%' then likeTail (likeMatch p) (d :: s2)
      else (if c = '_' then true else charLikeEq c d) && likeMatch p s2 := rfl

theorem likeMatch_pct (p s : List Char) :
    likeMatch ('%' :: p) s = likeTail (likeMatch p) s := by
  cases s with
  | nil => rw [likeMatch_cons_nil, if_pos rfl]
  | cons d s2 => rw [likeMatch_cons_cons, if_pos rfl]

theorem likeTail_iff (m : List Char → Bool) (s : List Char) :
    likeTail m s = true ↔ ∃ u v, s = u ++ v ∧ m v = true := by
  induction s with
  | nil =>
    simp only [likeTail]
    constructor
    · intro hm; exact ⟨[], [], rfl, hm⟩
    · rintro ⟨u, v, huv, hm⟩
      obtain ⟨rfl, rfl⟩ := List.append_eq_nil.mp huv.symm
      exact hm
  | cons d s2 ih =>
    simp only [likeTail, Bool.or_eq_true, ih]
    constructor
    · rintro (hm | ⟨u, v, rfl, hm⟩)
      · exact ⟨[], d :: s2, rfl, hm⟩
      · exact ⟨d :: u, v, rfl, hm⟩
    · rintro ⟨u, v, huv, hm⟩
      cases u with
      | nil =>
        left
        rw [List.nil_append] at huv
        rwa [huv]
      | cons x u2 =>
        right
        rw [List.cons_append] at huv
        injection huv with h1 h2
        exact ⟨u2, v, h2, hm⟩

theorem likeMatch_litRun (q : List Char) : WildFree q →
    ∀ s, likeMatch (q ++ ['%']) s = true ↔
      ∃ s1 s2, s = s1 ++ s2 ∧ s1.map lowerChar = q.map lowerChar := by
  induction q with
  | nil =>
    intro _ s
    rw [List.nil_append, likeMatch_pct, likeTail_iff]
    constructor
    · intro _; exact ⟨[], s, rfl, rfl⟩
    · intro _
      exact ⟨s, [], by rw [List.append_nil], rfl⟩
  | cons c q2 ih =>
    intro hw s
    have hc : c ≠ '%' ∧ c ≠ '_' := hw c (List.mem_cons_self c q2)
    have hw2 : WildFree q2 := fun x hx => hw x (List.mem_cons_of_mem c hx)
    cases s with
    | nil =>
      rw [List.cons_append, likeMatch_cons_nil, if_neg hc.1]
      constructor
      · intro h; cases h
      · rintro ⟨s1, s2, h1, h2⟩
        obtain ⟨rfl, rfl⟩ := List.append_eq_nil.mp h1.symm
        simp at h2
    | cons d s2 =>
      rw [List.cons_append, likeMatch_cons_cons, if_neg hc.1, if_neg hc.2,
        Bool.and_eq_true, ih hw2 s2]
      constructor
      · rintro ⟨hcd, s1, s3, rfl, hm⟩
        refine ⟨d :: s1, s3, rfl, ?_⟩
        have hlow : lowerChar c = lowerChar d := by
          have := hcd
          rw [charLikeEq, beq_iff_eq] at this
          exact this
        rw [List.map_cons, List.map_cons, hm, hlow]
      · rintro ⟨s1, s3, heq, hm⟩
        cases s1 with
        | nil => simp at hm
        | cons x s4 =>
          rw [List.cons_append] at heq
          injection heq with e1 e2
          subst e1
          rw [List.map_cons, List.map_cons] at hm
          injection hm with m1 m2
          refine ⟨?_, s4, s3, e2, m2⟩
          rw [charLikeEq, beq_iff_eq]
          exact m1.symm

theorem likeMatch_full (q : List Char) (hq : WildFree q) (s : List Char) :
    likeMatch ('%' :: (q ++ ['%'])) s = true ↔
      ∃ u s1 s2, s = u ++ s1 ++ s2 ∧ s1.map lowerChar = q.map lowerChar := by
  rw [likeMatch_pct, likeTail_iff]
  constructor
  · rintro ⟨u, v, rfl, hv⟩
    obtain ⟨s1, s2, rfl, hm⟩ := (likeMatch_litRun q hq v).mp hv
    exact ⟨u, s1, s2, by rw [List.append_assoc], hm⟩
  · rintro ⟨u, s1, s2, rfl, hm⟩
    exact ⟨u, s1 ++ s2, by rw [List.append_assoc],
      (likeMatch_litRun q hq _).mpr ⟨s1, s2, rfl, hm⟩⟩

theorem map_eq_append_split (f : Char → Char) :
    ∀ (A : List Char) (s B : List Char), s.map f = A ++ B →
      ∃ s1 s2, s = s1 ++ s2 ∧ s1.map f = A ∧ s2.map f = B := by
  intro A
  induction A with
  | nil =>
    intro s B h
    exact ⟨[], s, rfl, rfl, by simpa using h⟩
  | cons a A2 ih =>
    intro s B h
    cases s with
    | nil => simp at h
    | cons c s2 =>
      rw [List.map_cons, List.cons_append] at h
      injection h with h1 h2
      obtain ⟨s3, s4, rfl, hm1, hm2⟩ := ih s2 B h2
      exact ⟨c :: s3, s4, rfl, by rw [List.map_cons, h1, hm1], hm2⟩

theorem fieldLike_iff (q f : String) (hq : WildFree q.data) :
    fieldLike q f = true ↔ containsCI q f = true := by
  unfold fieldLike containsCI
  rw [decide_eq_true_eq, likeMatch_full q.data hq f.data]
  constructor
  · rintro ⟨u, s1, s2, heq, hm⟩
    refine ⟨u.map lowerChar, s2.map lowerChar, ?_⟩
    rw [heq, ← hm]
    simp [List.map_append]
  · rintro ⟨A, B, hAB⟩
    have h2 : f.data.map lowerChar = A ++ ((q.data.map lowerChar) ++ B) := by
      rw [← hAB, List.append_assoc]
    obtain ⟨u, rest, hfd, hu, hrest⟩ := map_eq_append_split lowerChar A f.data _ h2
    obtain ⟨s1, s2, rfl, hm1, hm2⟩ :=
      map_eq_append_split lowerChar (q.data.map lowerChar) rest B hrest
    exact ⟨u, s1, s2, by rw [hfd, List.append_assoc], hm1⟩

theorem deviceLike_iff (q : String) (d : Device) (hq : WildFree q.data) :
    deviceLike q d = true ↔ deviceContainsCI q d = true := by
  simp only [deviceLike, deviceContainsCI, Bool.or_eq_true]
  rw [fieldLike_iff q d.name hq, fieldLike_iff q d.serial_number hq,
    fieldLike_iff q d.os hq, fieldLike_iff q d.browser hq]

/-! ## Sorting lemmas (for claim C7) -/

theorem mem_insertDesc {x d : Device} : ∀ {l : List Device},
    x ∈ insertDesc d l ↔ x = d ∨ x ∈ l := by
  intro l
  induction l with
  | nil => simp [insertDesc]
  | cons e es ih =>
    simp only [insertDesc]
    by_cases h : e.id ≤ d.id
    · rw [if_pos h]
      simp [List.mem_cons]
    · rw [if_neg h]
      simp only [List.mem_cons, ih]
      tauto

theorem mem_sortDesc {x : Device} : ∀ {l : List Device}, x ∈ sortDesc l ↔ x ∈ l := by
  intro l
  induction l with
  | nil => simp [sortDesc]
  | cons e es ih =>
    simp only [sortDesc, mem_insertDesc, List.mem_cons, ih]

theorem pairwise_insertDesc {d : Device} : ∀ {l : List Device},
    List.Pairwise (fun a b => b.id ≤ a.id) l →
    List.Pairwise (fun a b => b.id ≤ a.id) (insertDesc d l) := by
  intro l
  induction l with
  | nil => intro _; simp [insertDesc]
  | cons e es ih =>
    intro h
    rw [List.pairwise_cons] at h
    obtain ⟨he, hes⟩ := h
    simp only [insertDesc]
    by_cases hle : e.id ≤ d.id
    · rw [if_pos hle]
      refine List.Pairwise.cons ?_ (List.Pairwise.cons he hes)
      intro x hx
      rcases List.mem_cons.mp hx with rfl | hx2
      · exact hle
      · exact le_trans (he x hx2) hle
    · rw [if_neg hle]
      refine List.Pairwise.cons ?_ (ih hes)
      intro x hx
      rcases mem_insertDesc.mp hx with rfl | hx2
      · omega
      · exact he x hx2

theorem sortDesc_sorted : ∀ (l : List Device),
    List.Pairwise (fun a b => b.id ≤ a.id) (sortDesc l) := by
  intro l
  induction l with
  | nil => simp [sortDesc]
  | cons e es ih => exact pairwise_insertDesc ih

/-! ## Claim C7 (search semantics) -/

/-- C7 counterexample: the non-empty query consisting of the single
character `%` is passed to LIKE as a wildcard, so the search returns a
device none of whose fields contains `%` as a substring — the search
does not return exactly the case-insensitive substring matches. -/
theorem search_wildcard_cex :
    api_search_devices ⟨[⟨1, "abc", "sn", "os", "br", "ip", false, 0⟩], [], 2⟩ "%" =
      some [⟨1, "abc", "sn", "os", "br", "ip", false, 0⟩]
    ∧ deviceContainsCI "%" ⟨1, "abc", "sn", "os", "br", "ip", false, 0⟩ = false := by
  refine ⟨by decide, by decide⟩

/-- C7 amended: for every query whose stripped form is non-empty and
free of the LIKE wildcards `%` and `_`, the search returns exactly the
devices one of whose name, serial_number, os or browser contains the
query as a case-insensitive (ASCII) substring, ordered by descending
id; a query containing `%` or `_` is interpreted with LIKE wildcard
semantics instead. -/
theorem search_ci_substring (db : DB) (q : String)
    (hq : pyStrip q ≠ "") (hw : WildFree (pyStrip q).data) :
    ∃ res, api_search_devices db q = some res
      ∧ (∀ d, d ∈ res ↔ d ∈ db.devices ∧ deviceContainsCI (pyStrip q) d = true)
      ∧ List.Pairwise (fun a b => b.id ≤ a.id) res := by
  refine ⟨sortDesc (db.devices.filter (fun d => deviceLike (pyStrip q) d)), ?_, ?_,
    sortDesc_sorted _⟩
  · simp [api_search_devices, hq]
  · intro d
    rw [mem_sortDesc, List.mem_filter, deviceLike_iff (pyStrip q) d hw]

/-- C7 amended witness: a wildcard-free query on a two-device database. -/
theorem search_ci_substring_check :
    ∃ res, api_search_devices ⟨[⟨1, "abc", "SN", "", "", "ip", false, 0⟩,
        ⟨2, "xyBCd", "S2", "", "", "ip", false, 0⟩], [], 3⟩ "bc" = some res
      ∧ (∀ d, d ∈ res ↔ d ∈ (⟨[⟨1, "abc", "SN", "", "", "ip", false, 0⟩,
          ⟨2, "xyBCd", "S2", "", "", "ip", false, 0⟩], [], 3⟩ : DB).devices
          ∧ deviceContainsCI (pyStrip "bc") d = true)
      ∧ List.Pairwise (fun a b => b.id ≤ a.id) res :=
  search_ci_substring ⟨[⟨1, "abc", "SN", "", "", "ip", false, 0⟩,
    ⟨2, "xyBCd", "S2", "", "", "ip", false, 0⟩], [], 3⟩ "bc" (by decide) (by decide)

/-! ## Credential lemmas (for claim C10) -/

theorem splitOnceDollar_cons (c : Char) (rest : List Char) :
    splitOnceDollar (c :: rest) =
      if c = '$' then some ([], rest)
      else
        match splitOnceDollar rest with
        | none => none
        | some (a, b) => some (c :: a, b) := rfl

theorem splitOnceDollar_len : ∀ {cs a b : List Char},
    splitOnceDollar cs = some (a, b) → cs.length = a.length + b.length + 1 := by
  intro cs
  induction cs with
  | nil => intro a b h; exact Option.noConfusion h
  | cons c rest ih =>
    intro a b h
    by_cases hc : c = '$'
    · rw [splitOnceDollar_cons, if_pos hc] at h
      injection h with h
      rw [Prod.mk.injEq] at h
      obtain ⟨ha, hb⟩ := h
      subst ha; subst hb
      simp
    · rw [splitOnceDollar_cons, if_neg hc] at h
      cases hr : splitOnceDollar rest with
      | none => rw [hr] at h; exact Option.noConfusion h
      | some q =>
        obtain ⟨a2, b2⟩ := q
        rw [hr] at h
        injection h with h
        rw [Prod.mk.injEq] at h
        obtain ⟨ha, hb⟩ := h
        subst ha; subst hb
        have hlen := ih hr
        simp only [List.length_cons, hlen]
        omega

theorem string_mk_length (l : List Char) : (⟨l⟩ : String).length = l.length := rfl

theorem hashDigest_length (salt password : String) :
    (hashDigest salt password).length = salt.length + password.length + 4 := by
  rw [hashDigest, String.length_append, String.length_append, String.length_append,
    String.length_append]
  have e1 : ("h(" : String).length = 2 := rfl
  have e2 : (":" : String).length = 1 := rfl
  have e3 : (")" : String).length = 1 := rfl
  omega

/-- Lengths of the parts of a successful 3-way `$` split. -/
theorem split2Dollar_len (p m s hv : String)
    (h : split2Dollar p = some (m, s, hv)) :
    p.length = m.length + s.length + hv.length + 2 := by
  unfold split2Dollar at h
  split at h
  · exact Option.noConfusion h
  · rename_i ml rest h2
    split at h
    · exact Option.noConfusion h
    · rename_i sl hl h3
      injection h with h
      rw [Prod.mk.injEq, Prod.mk.injEq] at h
      obtain ⟨hm, hs, hh⟩ := h
      have l1 := splitOnceDollar_len h2
      have l2 := splitOnceDollar_len h3
      have hp : p.length = p.data.length := rfl
      rw [← hm, ← hs, ← hh]
      simp only [string_mk_length]
      omega

/-- A string can never verify as a password against itself stored as
the hash value: the stored digest part is strictly shorter than the
string itself, while the recomputed digest is strictly longer. -/
theorem check_password_hash_self (p : String) : check_password_hash p p = false := by
  unfold check_password_hash
  split
  · rfl
  · rename_i t m s hv h1
    have hlen := split2Dollar_len p m s hv h1
    suffices hne : (hv == hashDigest s p) = false by
      rw [hne, Bool.and_false]
    rw [beq_eq_false_iff_ne]
    intro he
    have h2 := congrArg String.length he
    rw [hashDigest_length] at h2
    omega

/-! ## Claim C10 (the `$` hash marker) -/

/-- C10: a stored admin credential is treated as hashed exactly when it
contains `$`: neither startup migration (src/app.py or src/init_db.py)
rewrites a stored value containing `$`, and a login attempt with the
correct plaintext password against a stored legacy plaintext that
itself contains `$` is routed to hash verification and fails, leaving
the admins table unchanged — such an account can be neither migrated
nor logged into. -/
theorem dollar_is_hash_marker (admins : List Admin) (salt u p : String)
    (huniq : ∀ x ∈ admins, ∀ y ∈ admins, x.username = y.username → x = y) :
    (∀ a ∈ admins, hasChar a.password '$' = true → a ∈ App.init_admin salt admins)
    ∧ (∀ a ∈ admins, hasChar a.password '$' = true → a ∈ InitDb.init_admin salt admins)
    ∧ (∀ a, findAdmin admins (pyStrip u) = some a → a.password = p →
        hasChar p '$' = true → pyStrip u ≠ "" → (pyStrip u).length ≤ 50 →
        login admins salt u p = (admins, LoginOutcome.invalidCreds)) := by
  refine ⟨?_, ?_, ?_⟩
  · intro a ha hd
    have hmig : migrateRow salt a = a := by
      rw [migrateRow, if_neg]
      rintro ⟨h1, h2⟩
      exact h2 hd
    simp only [App.init_admin]
    split
    · exact List.mem_map.mpr ⟨a, List.mem_append_left _ ha, hmig⟩
    · rename_i f hf
      split
      · rename_i hpf
        have hga : (if a.username == "admin" then
            { a with password := generate_password_hash salt f.password } else a) = a := by
          rw [if_neg]
          intro hueq
          have hau : a.username = "admin" := by rwa [beq_iff_eq] at hueq
          have hfm : f ∈ admins := List.mem_of_find?_eq_some hf
          have hfu : f.username = "admin" := by
            have hp := List.find?_some hf
            rwa [beq_iff_eq] at hp
          have haf : a = f := huniq a ha f hfm (by rw [hau, hfu])
          rw [haf] at hd
          exact hpf.2 hd
        exact List.mem_map.mpr ⟨a, List.mem_map.mpr ⟨a, ha, hga⟩, hmig⟩
      · exact List.mem_map.mpr ⟨a, ha, hmig⟩
  · intro a ha hd
    simp only [InitDb.init_admin]
    split
    · exact List.mem_append_left _ ha
    · refine List.mem_map.mpr ⟨a, ha, ?_⟩
      rw [if_neg]
      intro h2
      exact h2 hd
  · intro a hfind hpa hd hu hl
    have hpne : p ≠ "" := by
      intro hp
      rw [hp] at hd
      exact absurd hd (by decide)
    simp only [login]
    rw [if_neg (by rintro (h | h); exact hu h; exact hpne h),
      if_neg (Nat.not_lt.mpr hl)]
    split
    · rename_i hnone
      rw [hfind] at hnone
    · rename_i ad had
      rw [hfind] at had
      injection had with had
      subst had
      rw [hpa, if_pos hd, if_neg]
      simp [check_password_hash_self p]

/-- C10 witness: the single-admin table storing the plaintext `pa$s`:
both migrations keep the row verbatim and login with the correct
plaintext fails. -/
theorem dollar_is_hash_marker_check :
    ((⟨1, "admin", "pa$s"⟩ : Admin) ∈ App.init_admin "s" [⟨1, "admin", "pa$s"⟩])
    ∧ ((⟨1, "admin", "pa$s"⟩ : Admin) ∈ InitDb.init_admin "s" [⟨1, "admin", "pa$s"⟩])
    ∧ login [⟨1, "admin", "pa$s"⟩] "s" "admin" "pa$s" =
      ([⟨1, "admin", "pa$s"⟩], LoginOutcome.invalidCreds) := by
  have h := dollar_is_hash_marker [⟨1, "admin", "pa$s"⟩] "s" "admin" "pa$s" (by decide)
  exact ⟨h.1 ⟨1, "admin", "pa$s"⟩ (by decide) (by decide),
    h.2.1 ⟨1, "admin", "pa$s"⟩ (by decide) (by decide),
    h.2.2 ⟨1, "admin", "pa$s"⟩ (by decide) rfl (by decide) (by decide) (by decide)⟩

end DevicePortal
